import Mathlib

/-!
Shallow embedding of the chat relay server implemented in src/server.py.

The server keeps four process-wide dictionaries:
  USERS    : nick -> {password, avatar}
  TOKENS   : token -> nick
  CLIENTS  : nick -> websocket
  MESSAGES : nick -> list of message frames

We model each Python dict as an association list (insertion order preserved,
keys unique on all reachable states).  Python exceptions are modelled as an
error component returned next to the state reached at the moment the
exception is raised; frames written to a websocket are collected in a send
trace.  Transport behaviour is a parameter sendOk : Conn -> Bool saying
whether writes to a given connection succeed.
-/

/-- Dictionary lookup, first matching key (Python `d.get(k)` / `d[k]`). -/
def dlookup {α : Type} : List (String × α) → String → Option α
  | [], _ => none
  | (k, v) :: d, k' => if k' = k then some v else dlookup d k'

/-- Dictionary write `d[k] = v`: replace the value in place if the key
exists, otherwise append the new key (Python dict insertion order). -/
def dinsert {α : Type} : List (String × α) → String → α → List (String × α)
  | [], k, v => [(k, v)]
  | (k', v') :: d, k, v => if k' = k then (k, v) :: d else (k', v') :: dinsert d k v

/-- Dictionary removal `d.pop(k)` (keys are unique on reachable states, so
filtering every occurrence coincides with removing the entry). -/
def dpop {α : Type} (d : List (String × α)) (k : String) : List (String × α) :=
  d.filter (fun p => p.1 ≠ k)

/-- A user record: `USERS[nick] = {"password": ..., "avatar": ...}`. -/
structure UserRec where
  password : String
  avatar : Option String
deriving DecidableEq, Repr

/-- A websocket connection handle, identified by an id so that distinct
connections of one identity can be told apart. -/
structure Conn where
  id : Nat
deriving DecidableEq, Repr

/-- A server-to-client frame.  The msg branch of the loop builds
`{"type": "msg", "from": nick, "to": to, "text": text}` where `to` and
`text` come from `data.get` and may be absent; the typing branch builds
`{"type": "typing", "from": nick}`. -/
inductive SFrame where
  | chat (fromNick : String) (toNick : Option String) (text : Option String)
  | typing (fromNick : String)
deriving DecidableEq, Repr

/-- Whether a server frame is a chat message (as opposed to a typing notice). -/
def SFrame.isChat : SFrame → Bool
  | .chat _ _ _ => true
  | .typing _ => false

/-- A client-to-server frame as the loop reads it: the handler only ever
looks at `data.get("type")`, `data.get("to")` and `data.get("text")`, each
of which may be absent. -/
structure InFrame where
  type : Option String
  toNick : Option String
  text : Option String
deriving DecidableEq, Repr

/-- The four process-wide dictionaries of src/server.py, lines 20-23. -/
structure ServerState where
  users : List (String × UserRec)
  tokens : List (String × String)
  clients : List (String × Conn)
  messages : List (String × List SFrame)
deriving DecidableEq, Repr

/-- The empty state the process starts with. -/
def initialState : ServerState := ⟨[], [], [], []⟩

/-- An error raised by an HTTP route handler: either an HTTPException with
a status code and detail, or an uncaught KeyError. -/
inductive ReqErr where
  | http (code : Nat) (detail : String)
  | keyErr (k : String)
deriving DecidableEq, Repr

/-- An exception raised inside the websocket loop: a KeyError from indexing
MESSAGES with an unknown key (the key may be the absent value None), or a
transport error from a failed websocket write. -/
inductive PyError where
  | keyError (k : Option String)
  | transportError
deriving DecidableEq, Repr

/-- Python str.strip() with no argument: drop leading and trailing
whitespace characters. -/
def pyStrip (s : String) : String :=
  String.mk (((s.data.dropWhile Char.isWhitespace).reverse.dropWhile
    Char.isWhitespace).reverse)

/-- POST /register (src/server.py lines 39-48).  Returns the state after
the request together with the error, if one was raised; a raise aborts the
handler before any mutation, so the state component is the input state. -/
def register (st : ServerState) (nickname password : String) :
    ServerState × Option ReqErr :=
  let nick := pyStrip nickname
  if nick = "" ∨ password = "" then
    (st, some (ReqErr.http 400 "Nickname and password required"))
  else if (dlookup st.users nick).isSome then
    (st, some (ReqErr.http 400 "User already exists"))
  else
    ({st with users := dinsert st.users nick ⟨password, none⟩,
              messages := dinsert st.messages nick []}, none)

/-- POST /login (src/server.py lines 50-57).  The freshly generated uuid
token is passed in as a parameter. -/
def login (st : ServerState) (nickname password tok : String) :
    ServerState × Option ReqErr :=
  let nick := pyStrip nickname
  match dlookup st.users nick with
  | none => (st, some (ReqErr.http 400 "Invalid credentials"))
  | some u =>
    if u.password ≠ password then (st, some (ReqErr.http 400 "Invalid credentials"))
    else ({st with tokens := dinsert st.tokens tok nick}, none)

/-- POST /change_nick (src/server.py lines 71-84).  Mutation order follows
the source: USERS is moved first, then MESSAGES (an uncaught KeyError if
the old nick has no queue, leaving USERS half-migrated), then every token
that mapped to the old nick is repointed, then CLIENTS is moved if the old
nick is online. -/
def change_nick (st : ServerState) (old_nick new_nick password : String) :
    ServerState × Option ReqErr :=
  match dlookup st.users old_nick with
  | none => (st, some (ReqErr.http 400 "Invalid credentials"))
  | some u =>
    if u.password ≠ password then (st, some (ReqErr.http 400 "Invalid credentials"))
    else if (dlookup st.users new_nick).isSome then
      (st, some (ReqErr.http 400 "New nick already exists"))
    else
      let st1 := {st with users := dinsert (dpop st.users old_nick) new_nick u}
      match dlookup st1.messages old_nick with
      | none => (st1, some (ReqErr.keyErr old_nick))
      | some q =>
        let st2 := {st1 with messages := dinsert (dpop st1.messages old_nick) new_nick q}
        let tks := st2.tokens.map (fun p => if p.2 = old_nick then (p.1, new_nick) else p)
        let st3 := {st2 with tokens := tks}
        match dlookup st3.clients old_nick with
        | some c =>
          ({st3 with clients := dinsert (dpop st3.clients old_nick) new_nick c}, none)
        | none => (st3, none)

/-- Line 116: `CLIENTS[nick] = websocket`, the unconditional presence bind. -/
def bindClient (st : ServerState) (nick : String) (ws : Conn) : ServerState :=
  {st with clients := dinsert st.clients nick ws}

/-- Lines 120-122: read the backlog `MESSAGES.get(nick, [])` and clear the
queue with `MESSAGES[nick] = []`.  Returns the cleared state and the
backlog in queue order. -/
def drain (st : ServerState) (nick : String) : ServerState × List SFrame :=
  ({st with messages := dinsert st.messages nick []},
   (dlookup st.messages nick).getD [])

/-- Lines 145-147: the WebSocketDisconnect handler pops `CLIENTS[nick]`
unconditionally; it does not compare the stored connection with the one
that disconnected. -/
def disconnectCleanup (st : ServerState) (nick : String) : ServerState :=
  {st with clients := dpop st.clients nick}

/-- Result of running part of a connection handler: the state reached, the
trace of frames written (connection, frame) in order, and the exception
that ended the run, if any. -/
structure RunResult where
  state : ServerState
  sent : List (Conn × SFrame)
  err : Option PyError
deriving DecidableEq, Repr

/-- One iteration of the receive loop body (src/server.py lines 126-143)
for a frame already read.  The msg branch sends directly when the
recipient is in CLIENTS (a failed write raises a transport error), and
otherwise appends to `MESSAGES[to]`, raising KeyError when `to` is not a
MESSAGES key, including when the frame has no `to` field at all.  The
typing branch sends only when the recipient is in CLIENTS and otherwise
does nothing.  Any other frame type falls through both branches. -/
def handleFrame (sendOk : Conn → Bool) (nick : String) (st : ServerState)
    (f : InFrame) : RunResult :=
  match f.type with
  | some "msg" =>
    let msg := SFrame.chat nick f.toNick f.text
    match f.toNick with
    | some r =>
      match dlookup st.clients r with
      | some c =>
        if sendOk c then ⟨st, [(c, msg)], none⟩
        else ⟨st, [], some PyError.transportError⟩
      | none =>
        match dlookup st.messages r with
        | some q => ⟨{st with messages := dinsert st.messages r (q ++ [msg])}, [], none⟩
        | none => ⟨st, [], some (PyError.keyError (some r))⟩
    | none => ⟨st, [], some (PyError.keyError none)⟩
  | some "typing" =>
    match f.toNick with
    | some r =>
      match dlookup st.clients r with
      | some c =>
        if sendOk c then ⟨st, [(c, SFrame.typing nick)], none⟩
        else ⟨st, [], some PyError.transportError⟩
      | none => ⟨st, [], none⟩
    | none => ⟨st, [], none⟩
  | _ => ⟨st, [], none⟩

/-- The receive loop over a finite prefix of inbound frames.  An exception
ends the loop at the state reached when it was raised; only
WebSocketDisconnect is caught by the handler, and that is modelled
separately in websocket_endpoint. -/
def runFrames (sendOk : Conn → Bool) (nick : String) :
    ServerState → List InFrame → RunResult
  | st, [] => ⟨st, [], none⟩
  | st, f :: fs =>
    let r := handleFrame sendOk nick st f
    match r.err with
    | some e => ⟨r.state, r.sent, some e⟩
    | none =>
      let r2 := runFrames sendOk nick r.state fs
      ⟨r2.state, r.sent ++ r2.sent, r2.err⟩

/-- The websocket endpoint (src/server.py lines 105-147).  The token is
resolved through TOKENS; a missing or unresolvable token (Python falsiness
also rejects an empty nick) closes the connection with nothing bound,
drained or sent.  Otherwise the connection is bound, the backlog is sent
and the queue cleared (a failed backlog write raises before the clear),
then the loop runs over `inputs`; `clientDisconnects` tells whether the
prefix ends with the client disconnecting, which is the only exception
that triggers the CLIENTS pop. -/
def websocket_endpoint (sendOk : Conn → Bool) (st : ServerState)
    (token : Option String) (ws : Conn) (inputs : List InFrame)
    (clientDisconnects : Bool) : RunResult :=
  match token.bind (dlookup st.tokens) with
  | none => ⟨st, [], none⟩
  | some nick =>
    if nick = "" then ⟨st, [], none⟩
    else
      let st1 := bindClient st nick ws
      let backlog := (drain st1 nick).2
      if sendOk ws ∨ backlog.isEmpty then
        let r := runFrames sendOk nick (drain st1 nick).1 inputs
        let outs := backlog.map (fun m => (ws, m)) ++ r.sent
        match r.err with
        | some e => ⟨r.state, outs, some e⟩
        | none =>
          if clientDisconnects then ⟨disconnectCleanup r.state nick, outs, none⟩
          else ⟨r.state, outs, none⟩
      else ⟨st1, [], some PyError.transportError⟩

/-! ### Dictionary lemmas -/

theorem dlookup_dinsert_self {α : Type} (d : List (String × α)) (k : String) (v : α) :
    dlookup (dinsert d k v) k = some v := by
  induction d with
  | nil => simp [dinsert, dlookup]
  | cons p d ih =>
    obtain ⟨k1, v1⟩ := p
    by_cases h : k1 = k
    · simp [dinsert, h, dlookup]
    · simp [dinsert, h, dlookup, Ne.symm h, ih]

theorem dlookup_dinsert_ne {α : Type} (d : List (String × α)) (k k' : String) (v : α)
    (h : k' ≠ k) : dlookup (dinsert d k v) k' = dlookup d k' := by
  induction d with
  | nil => simp [dinsert, dlookup, h]
  | cons p d ih =>
    obtain ⟨k1, v1⟩ := p
    by_cases h1 : k1 = k
    · subst h1
      simp [dinsert, dlookup, h]
    · by_cases h2 : k' = k1
      · simp [dinsert, h1, dlookup, h2]
      · simp [dinsert, h1, dlookup, h2, ih]

theorem dlookup_dpop_self {α : Type} (d : List (String × α)) (k : String) :
    dlookup (dpop d k) k = none := by
  induction d with
  | nil => simp [dpop, dlookup]
  | cons p d ih =>
    obtain ⟨k1, v1⟩ := p
    by_cases h : k1 = k
    · simpa [dpop, h] using ih
    · simpa [dpop, h, dlookup, Ne.symm h] using ih

theorem dlookup_dpop_ne {α : Type} (d : List (String × α)) (k k' : String)
    (h : k' ≠ k) : dlookup (dpop d k) k' = dlookup d k' := by
  induction d with
  | nil => simp [dpop, dlookup]
  | cons p d ih =>
    obtain ⟨k1, v1⟩ := p
    by_cases h1 : k1 = k
    · subst h1
      simpa [dpop, dlookup, h] using ih
    · by_cases h2 : k' = k1
      · simp [dpop, h1, dlookup, h2]
      · simpa [dpop, h1, dlookup, h2] using ih

theorem dlookup_mem {α : Type} {d : List (String × α)} {k : String} {v : α}
    (h : dlookup d k = some v) : (k, v) ∈ d := by
  induction d with
  | nil => simp [dlookup] at h
  | cons p d ih =>
    obtain ⟨k1, v1⟩ := p
    by_cases h1 : k = k1
    · subst h1
      simp [dlookup] at h
      simp [h]
    · simp [dlookup, h1] at h
      exact List.mem_cons_of_mem _ (ih h)

theorem rename_fun_eq (o nn : String) :
    (fun p : String × String => if p.2 = o then (p.1, nn) else p) =
      (fun p : String × String => (p.1, if p.2 = o then nn else p.2)) := by
  funext p
  by_cases h : p.2 = o <;> simp [h]

theorem dlookup_rename (d : List (String × String)) (o nn t : String) :
    dlookup (d.map (fun p => if p.2 = o then (p.1, nn) else p)) t =
      (dlookup d t).map (fun m => if m = o then nn else m) := by
  rw [rename_fun_eq]
  induction d with
  | nil => simp [dlookup]
  | cons p d ih =>
    obtain ⟨t1, n1⟩ := p
    simp only [List.map_cons]
    by_cases h2 : t = t1
    · subst h2
      simp [dlookup]
    · simp [dlookup, h2, ih]

/-! ### Concrete fixture states -/

/-- A state with one registered user alice holding token t, nobody
connected, and the identity carol never registered. -/
def stA : ServerState :=
  ⟨[("alice", ⟨"pw", none⟩)], [("t", "alice")], [], [("alice", [])]⟩

/-- A state with alice and bob registered, alice holding token ta, and bob
present in CLIENTS under a connection (id 2) whose transport is dead. -/
def stB : ServerState :=
  ⟨[("alice", ⟨"pw", none⟩), ("bob", ⟨"pw", none⟩)], [("ta", "alice")],
   [("bob", ⟨2⟩)], [("alice", []), ("bob", [])]⟩

/-- A state where bob is currently bound to connection id 1. -/
def stC : ServerState :=
  ⟨[("bob", ⟨"pw", none⟩)], [("tb", "bob")], [("bob", ⟨1⟩)], [("bob", [])]⟩

/-- C1: the claim says a chat frame to an unregistered recipient yields an
UnknownRecipient error on the sender's connection and the connection stays
usable.  The code instead evaluates `MESSAGES[to]` for the unknown key and
raises KeyError: the run below sends alice's frame to the unregistered
carol followed by a valid frame, and the handler dies at the first frame
with a KeyError, sends nothing at all, and never processes the valid
follow-up frame, while the same valid frame on its own is delivered. -/
theorem unknown_recipient_crashes_handler :
    websocket_endpoint (fun _ => true) stA (some "t") ⟨1⟩
      [⟨some "msg", some "carol", some "hi"⟩, ⟨some "msg", some "alice", some "ok"⟩] false =
    ⟨⟨[("alice", ⟨"pw", none⟩)], [("t", "alice")], [("alice", ⟨1⟩)], [("alice", [])]⟩,
     [], some (PyError.keyError (some "carol"))⟩
    ∧ (websocket_endpoint (fun _ => true) stA (some "t") ⟨1⟩
        [⟨some "msg", some "alice", some "ok"⟩] false).sent =
      [(⟨1⟩, SFrame.chat "alice" (some "alice") (some "ok"))] := by
  constructor <;> rfl

/-- C3: the claim says a failed direct write to an apparently-live
recipient falls back to enqueueing the message and unbinds the stale
presence entry.  In the code the failed `CLIENTS[to].send_json` raises out
of the loop: below, alice sends to bob whose connection (id 2) is dead;
the run ends with a transport error, nothing is sent, bobs queue is still
empty (the message is lost) and bobs stale CLIENTS entry is still there. -/
theorem delivery_failure_loses_message :
    (websocket_endpoint (fun c => c.id ≠ 2) stB (some "ta") ⟨1⟩
      [⟨some "msg", some "bob", some "hi"⟩] false).err = some PyError.transportError
    ∧ (websocket_endpoint (fun c => c.id ≠ 2) stB (some "ta") ⟨1⟩
        [⟨some "msg", some "bob", some "hi"⟩] false).sent = []
    ∧ dlookup (websocket_endpoint (fun c => c.id ≠ 2) stB (some "ta") ⟨1⟩
        [⟨some "msg", some "bob", some "hi"⟩] false).state.messages "bob" = some []
    ∧ dlookup (websocket_endpoint (fun c => c.id ≠ 2) stB (some "ta") ⟨1⟩
        [⟨some "msg", some "bob", some "hi"⟩] false).state.clients "bob" = some ⟨2⟩ := by
  refine ⟨rfl, rfl, rfl, rfl⟩

/-- C4: the claim says the disconnect-time unbind removes the registry
entry for an identity only when it still equals the disconnecting
connection.  The cleanup in the code pops by nick alone (it does not take
the connection into account): after bobs entry is superseded by connection
id 2, running the disconnect cleanup that the handler of the old
connection id 1 performs removes the newer entry, leaving bob absent. -/
theorem stale_disconnect_clobbers_newer_bind :
    dlookup (bindClient stC "bob" ⟨2⟩).clients "bob" = some ⟨2⟩
    ∧ dlookup ((disconnectCleanup (bindClient stC "bob" ⟨2⟩) "bob").clients) "bob" = none := by
  constructor <;> rfl

/-- C5: the claim says malformed frames (missing fields) are ignored
without crashing.  A frame declaring type msg but carrying no `to` field
makes the code evaluate `MESSAGES[None]`, raising KeyError and killing the
handler; only frames of unknown type are really ignored. -/
theorem malformed_msg_frame_raises_keyerror :
    handleFrame (fun _ => true) "alice"
      ⟨[("alice", ⟨"pw", none⟩)], [("t", "alice")], [("alice", ⟨1⟩)], [("alice", [])]⟩
      ⟨some "msg", none, none⟩ =
    ⟨⟨[("alice", ⟨"pw", none⟩)], [("t", "alice")], [("alice", ⟨1⟩)], [("alice", [])]⟩,
     [], some (PyError.keyError none)⟩ := by
  rfl

/-- C6: a connection whose token is absent or does not resolve through
TOKENS (including the falsy empty nick) is closed with no frame sent, no
presence entry bound, no queue drained and no state change at all. -/
theorem auth_failure_fail_closed (sendOk : Conn → Bool) (st : ServerState)
    (token : Option String) (ws : Conn) (inputs : List InFrame) (d : Bool)
    (h : token.bind (dlookup st.tokens) = none ∨ token.bind (dlookup st.tokens) = some "") :
    websocket_endpoint sendOk st token ws inputs d = ⟨st, [], none⟩ := by
  rcases h with h | h <;> simp [websocket_endpoint, h]

/-- Witness for C6: a connection with no token at all against the empty
state is turned away with nothing exchanged. -/
theorem auth_failure_fail_closed_witness :
    websocket_endpoint (fun _ => true) initialState none ⟨1⟩ [] false =
      ⟨initialState, [], none⟩ :=
  auth_failure_fail_closed (fun _ => true) initialState none ⟨1⟩ [] false (Or.inl rfl)

/-- C7: drain returns exactly the queued sequence, a second drain with no
intervening enqueue returns the empty sequence, and draining an identity
with nothing queued returns the empty sequence. -/
theorem drain_read_and_clear (st : ServerState) (n : String) :
    (drain st n).2 = (dlookup st.messages n).getD []
    ∧ (drain (drain st n).1 n).2 = []
    ∧ (dlookup st.messages n = none → (drain st n).2 = []) := by
  refine ⟨rfl, ?_, ?_⟩
  · simp [drain, dlookup_dinsert_self]
  · intro h
    simp [drain, h]

/-- Witness for C7: draining an identity that has no queue in the empty
state yields the empty sequence. -/
theorem drain_read_and_clear_witness : (drain initialState "bob").2 = [] :=
  (drain_read_and_clear initialState "bob").2.2 rfl

/-- A state where bob holds token tb and has two chat messages queued
while offline. -/
def stQ : ServerState :=
  ⟨[("alice", ⟨"pw", none⟩), ("bob", ⟨"pw", none⟩)], [("tb", "bob")], [],
   [("alice", []),
    ("bob", [SFrame.chat "alice" (some "bob") (some "hi"),
             SFrame.chat "alice" (some "bob") (some "there")])]⟩

/-- C2: on a successful connection for identity n, the frames the handler
writes are exactly the queued backlog of n, mapped in queue order onto the
new connection, followed by whatever the receive loop produces from a
queue-cleared state; moreover the queue is cleared before the loop starts,
and enqueueing appends at the tail, so queue order is enqueue order. -/
theorem backlog_delivered_before_inbound (sendOk : Conn → Bool) (st : ServerState)
    (token : Option String) (ws : Conn) (inputs : List InFrame) (d : Bool) (n : String)
    (h1 : token.bind (dlookup st.tokens) = some n) (h2 : n ≠ "")
    (h3 : sendOk ws = true) :
    (websocket_endpoint sendOk st token ws inputs d).sent =
      ((dlookup st.messages n).getD []).map (fun m => (ws, m)) ++
        (runFrames sendOk n (drain (bindClient st n ws) n).1 inputs).sent
    ∧ dlookup ((drain (bindClient st n ws) n).1).messages n = some []
    ∧ (∀ (sendOk2 : Conn → Bool) (nick : String) (st2 : ServerState) (f : InFrame)
         (r : String) (q : List SFrame),
        f.type = some "msg" → f.toNick = some r → dlookup st2.clients r = none →
        dlookup st2.messages r = some q →
        dlookup (handleFrame sendOk2 nick st2 f).state.messages r =
          some (q ++ [SFrame.chat nick (some r) f.text])) := by
  refine ⟨?_, ?_, ?_⟩
  · simp only [websocket_endpoint, h1]
    rw [if_neg h2]
    simp only [h3, true_or, if_true]
    cases hr : (runFrames sendOk n (drain (bindClient st n ws) n).1 inputs).err with
    | none => cases d <;> simp [hr, drain, bindClient]
    | some e => simp [hr, drain, bindClient]
  · simp [drain, bindClient, dlookup_dinsert_self]
  · intro sendOk2 nick st2 f r q hty hto hcl hq
    simp [handleFrame, hty, hto, hcl, hq, dlookup_dinsert_self]

/-- Witness for C2: bob reconnects on connection id 5 with two messages
queued and an empty inbound prefix; both are delivered to that connection
in queue order and the queue is left cleared. -/
theorem backlog_delivered_before_inbound_witness :
    (websocket_endpoint (fun _ => true) stQ (some "tb") ⟨5⟩ [] false).sent =
      ((dlookup stQ.messages "bob").getD []).map (fun m => ((⟨5⟩ : Conn), m)) ++
        (runFrames (fun _ => true) "bob" (drain (bindClient stQ "bob" ⟨5⟩) "bob").1 []).sent
    ∧ dlookup ((drain (bindClient stQ "bob" ⟨5⟩) "bob").1).messages "bob" = some [] :=
  ⟨(backlog_delivered_before_inbound (fun _ => true) stQ (some "tb") ⟨5⟩ [] false "bob"
      rfl (by decide) rfl).1,
   (backlog_delivered_before_inbound (fun _ => true) stQ (some "tb") ⟨5⟩ [] false "bob"
      rfl (by decide) rfl).2.1⟩

/-! ### Reachable states and the queues-hold-only-chats invariant -/

/-- Every message sitting in any offline queue is a chat frame. -/
def chatOnlyB (st : ServerState) : Bool :=
  st.messages.all (fun p => p.2.all SFrame.isChat)

/-- One atomic mutation of the shared state, by any HTTP request handler
or by any step of any connection handler (the pieces of
websocket_endpoint are separate steps, so interleavings of concurrent
connections are covered). -/
inductive Step : ServerState → ServerState → Prop
  | registerReq (n p : String) (st : ServerState) : Step st (register st n p).1
  | loginReq (n p t : String) (st : ServerState) : Step st (login st n p t).1
  | changeNickReq (o nn p : String) (st : ServerState) : Step st (change_nick st o nn p).1
  | bindStep (n : String) (ws : Conn) (st : ServerState) : Step st (bindClient st n ws)
  | drainStep (n : String) (st : ServerState) : Step st (drain st n).1
  | frameStep (sendOk : Conn → Bool) (n : String) (f : InFrame) (st : ServerState) :
      Step st (handleFrame sendOk n st f).state
  | disconnectStep (n : String) (st : ServerState) : Step st (disconnectCleanup st n)

/-- States the server process can reach from its empty start state. -/
def Reachable (st : ServerState) : Prop :=
  Relation.ReflTransGen Step initialState st

theorem all_dinsert {α : Type} (d : List (String × α)) (k : String) (v : α)
    (P : String × α → Bool) (hd : d.all P = true) (hv : P (k, v) = true) :
    (dinsert d k v).all P = true := by
  induction d with
  | nil => simp [dinsert, hv]
  | cons p d ih =>
    simp only [List.all_cons, Bool.and_eq_true] at hd
    obtain ⟨k1, v1⟩ := p
    by_cases h : k1 = k
    · simp [dinsert, h, List.all_cons, hv, hd.2]
    · simp [dinsert, h, List.all_cons, hd.1, ih hd.2]

theorem all_dpop {α : Type} (d : List (String × α)) (k : String)
    (P : String × α → Bool) (hd : d.all P = true) : (dpop d k).all P = true := by
  rw [List.all_eq_true] at hd ⊢
  intro x hx
  exact hd x (List.mem_of_mem_filter hx)

theorem chatOnly_lookup {st : ServerState} (hst : chatOnlyB st = true) {r : String}
    {q : List SFrame} (hq : dlookup st.messages r = some q) :
    q.all SFrame.isChat = true := by
  unfold chatOnlyB at hst
  rw [List.all_eq_true] at hst
  exact hst (r, q) (dlookup_mem hq)

/-- The messages dictionary after login is untouched. -/
theorem login_messages (st : ServerState) (n p t : String) :
    (login st n p t).1.messages = st.messages := by
  unfold login
  dsimp only
  split
  · rfl
  · split <;> rfl

/-- The state after register either keeps the messages dictionary or adds
an empty queue under the trimmed nick. -/
theorem register_messages (st : ServerState) (n p : String) :
    (register st n p).1.messages = st.messages ∨
      (register st n p).1.messages = dinsert st.messages (pyStrip n) [] := by
  unfold register
  dsimp only
  split_ifs
  · exact Or.inl rfl
  · exact Or.inl rfl
  · exact Or.inr rfl

/-- The state after change_nick either keeps the messages dictionary or
moves the queue found under the old nick to the new nick. -/
theorem change_nick_messages (st : ServerState) (o nn p : String) :
    (change_nick st o nn p).1.messages = st.messages ∨
      ∃ q, dlookup st.messages o = some q ∧
        (change_nick st o nn p).1.messages = dinsert (dpop st.messages o) nn q := by
  unfold change_nick
  split
  · exact Or.inl rfl
  · split_ifs
    · exact Or.inl rfl
    · exact Or.inl rfl
    · dsimp only
      split
      · exact Or.inl rfl
      · next q hq =>
        refine Or.inr ⟨q, hq, ?_⟩
        split <;> rfl

/-- The state after one loop iteration either keeps the messages
dictionary or appends one chat frame to an existing queue. -/
theorem handleFrame_messages (sendOk : Conn → Bool) (n : String) (st : ServerState)
    (f : InFrame) :
    (handleFrame sendOk n st f).state.messages = st.messages ∨
      ∃ r q, dlookup st.messages r = some q ∧
        (handleFrame sendOk n st f).state.messages =
          dinsert st.messages r (q ++ [SFrame.chat n f.toNick f.text]) := by
  unfold handleFrame
  dsimp only
  split
  · split
    · next r heq =>
      split
      · split
        · exact Or.inl rfl
        · exact Or.inl rfl
      · split
        · next q hq => exact Or.inr ⟨r, q, hq, rfl⟩
        · exact Or.inl rfl
    · exact Or.inl rfl
  · split
    · next r heq =>
      split
      · split
        · exact Or.inl rfl
        · exact Or.inl rfl
      · exact Or.inl rfl
    · exact Or.inl rfl
  · exact Or.inl rfl

/-- Every atomic step preserves the queues-hold-only-chats invariant. -/
theorem chatOnly_step {st st2 : ServerState} (h : Step st st2)
    (hst : chatOnlyB st = true) : chatOnlyB st2 = true := by
  cases h with
  | registerReq n p st =>
    rcases register_messages st n p with hm | hm <;> unfold chatOnlyB <;> rw [hm]
    · exact hst
    · exact all_dinsert _ _ _ _ hst (by simp)
  | loginReq n p t st =>
    unfold chatOnlyB
    rw [login_messages]
    exact hst
  | changeNickReq o nn p st =>
    rcases change_nick_messages st o nn p with hm | ⟨q, hq, hm⟩ <;>
      unfold chatOnlyB <;> rw [hm]
    · exact hst
    · exact all_dinsert _ _ _ _ (all_dpop _ _ _ hst) (by simpa using chatOnly_lookup hst hq)
  | bindStep n ws st => exact hst
  | drainStep n st =>
    unfold chatOnlyB drain
    exact all_dinsert _ _ _ _ hst (by simp)
  | frameStep sendOk n f st =>
    rcases handleFrame_messages sendOk n st f with hm | ⟨r, q, hq, hm⟩ <;>
      unfold chatOnlyB <;> rw [hm]
    · exact hst
    · refine all_dinsert _ _ _ _ hst ?_
      have hq2 := chatOnly_lookup hst hq
      simp only [List.all_append, Bool.and_eq_true]
      exact ⟨by simpa using hq2, by simp [SFrame.isChat]⟩
  | disconnectStep n st => exact hst

/-- Draining any identity of a state whose queues hold only chats yields
only chats. -/
theorem chatOnly_drain {st : ServerState} (hst : chatOnlyB st = true) (n : String) :
    ((drain st n).2.all SFrame.isChat) = true := by
  unfold drain
  cases hq : dlookup st.messages n with
  | none => simp
  | some q => simpa using chatOnly_lookup hst hq

/-- C8: a typing frame whose recipient has no live connection leaves the
state untouched and sends nothing (so it is never queued), and in every
reachable state the offline queues hold only chat frames, hence a
reconnect drain only ever delivers chat frames. -/
theorem typing_ephemeral_and_queues_chat_only :
    (∀ (sendOk : Conn → Bool) (nick : String) (st : ServerState) (f : InFrame),
      f.type = some "typing" →
      (∀ r, f.toNick = some r → dlookup st.clients r = none) →
      handleFrame sendOk nick st f = ⟨st, [], none⟩)
    ∧ (∀ st : ServerState, Reachable st →
        chatOnlyB st = true ∧ ∀ n : String, ((drain st n).2.all SFrame.isChat) = true) := by
  constructor
  · intro sendOk nick st f hty hoff
    cases hto : f.toNick with
    | none => simp [handleFrame, hty, hto]
    | some r => simp [handleFrame, hty, hto, hoff r hto]
  · intro st h
    have hinv : chatOnlyB st = true := by
      induction h with
      | refl => rfl
      | tail hab hbc ih => exact chatOnly_step hbc ih
    exact ⟨hinv, fun n => chatOnly_drain hinv n⟩

/-- Witness for C8: a typing frame for the offline bob is dropped without
touching the state, and the initial state satisfies the invariant. -/
theorem typing_ephemeral_witness :
    handleFrame (fun _ => true) "alice" stA ⟨some "typing", some "bob", none⟩ =
      ⟨stA, [], none⟩
    ∧ chatOnlyB initialState = true :=
  ⟨typing_ephemeral_and_queues_chat_only.1 (fun _ => true) "alice" stA
      ⟨some "typing", some "bob", none⟩ rfl (fun _ _ => rfl),
   (typing_ephemeral_and_queues_chat_only.2 initialState Relation.ReflTransGen.refl).1⟩

/-- C9: a successful nick change moves the user record and the offline
queue from the old to the new nick, moves the presence entry when the old
nick is online and leaves CLIENTS untouched otherwise, repoints every
token that mapped to the old nick, and leaves no dictionary entry keyed by
(or token pointing to) the old nick. -/
theorem change_nick_moves_all_state (st st2 : ServerState) (o nn p : String)
    (h : change_nick st o nn p = (st2, none)) :
    dlookup st2.users nn = dlookup st.users o
    ∧ dlookup st2.users o = none
    ∧ dlookup st2.messages nn = dlookup st.messages o
    ∧ dlookup st2.messages o = none
    ∧ (∀ c : Conn, dlookup st.clients o = some c →
        dlookup st2.clients nn = some c ∧ dlookup st2.clients o = none)
    ∧ (dlookup st.clients o = none → st2.clients = st.clients)
    ∧ (∀ t : String, dlookup st2.tokens t =
        (dlookup st.tokens t).map (fun m => if m = o then nn else m))
    ∧ (∀ t : String, dlookup st2.tokens t ≠ some o) := by
  unfold change_nick at h
  split at h
  · exact absurd (congrArg Prod.snd h) (by simp)
  · next u hu =>
    split_ifs at h with h1 h2
    · exact absurd (congrArg Prod.snd h) (by simp)
    · exact absurd (congrArg Prod.snd h) (by simp)
    · have hne : o ≠ nn := by
        intro he
        rw [← he, hu] at h2
        simp at h2
      dsimp only at h
      split at h
      · exact absurd (congrArg Prod.snd h) (by simp)
      · next q hq =>
        have htok : ∀ t : String,
            dlookup (st.tokens.map (fun p => if p.2 = o then (p.1, nn) else p)) t =
              (dlookup st.tokens t).map (fun m => if m = o then nn else m) :=
          fun t => dlookup_rename st.tokens o nn t
        split at h
        · next c hc =>
          have hst2 := (Prod.mk.injEq _ _ _ _).mp h
          obtain ⟨hst2, -⟩ := hst2
          subst hst2
          refine ⟨?_, ?_, ?_, ?_, ?_, ?_, ?_, ?_⟩
          · rw [dlookup_dinsert_self, hu]
          · rw [dlookup_dinsert_ne _ _ _ _ hne, dlookup_dpop_self]
          · rw [dlookup_dinsert_self, hq]
          · rw [dlookup_dinsert_ne _ _ _ _ hne, dlookup_dpop_self]
          · intro c0 hc0
            rw [hc0] at hc
            cases hc
            constructor
            · rw [dlookup_dinsert_self]
            · rw [dlookup_dinsert_ne _ _ _ _ hne, dlookup_dpop_self]
          · intro hnone
            rw [hnone] at hc
            cases hc
          · exact htok
          · intro t
            rw [htok t]
            cases dlookup st.tokens t with
            | none => simp
            | some m =>
              by_cases hm : m = o <;> simp [hm, Ne.symm hne]
        · next hc =>
          have hst2 := (Prod.mk.injEq _ _ _ _).mp h
          obtain ⟨hst2, -⟩ := hst2
          subst hst2
          refine ⟨?_, ?_, ?_, ?_, ?_, ?_, ?_, ?_⟩
          · rw [dlookup_dinsert_self, hu]
          · rw [dlookup_dinsert_ne _ _ _ _ hne, dlookup_dpop_self]
          · rw [dlookup_dinsert_self, hq]
          · rw [dlookup_dinsert_ne _ _ _ _ hne, dlookup_dpop_self]
          · intro c0 hc0
            rw [hc0] at hc
            cases hc
          · intro _
            rfl
          · exact htok
          · intro t
            rw [htok t]
            cases dlookup st.tokens t with
            | none => simp
            | some m =>
              by_cases hm : m = o <;> simp [hm, Ne.symm hne]

/-- The state produced by renaming bob to rob in stC. -/
def stC2 : ServerState :=
  ⟨[("rob", ⟨"pw", none⟩)], [("tb", "rob")], [("rob", ⟨1⟩)], [("rob", [])]⟩

/-- Witness for C9: renaming the online bob to rob moves the user record,
the queue and the presence entry, repoints the token tb, and leaves no
entry for bob. -/
theorem change_nick_moves_all_state_witness :
    dlookup stC2.users "rob" = dlookup stC.users "bob"
    ∧ dlookup stC2.messages "bob" = none
    ∧ dlookup stC2.tokens "tb" ≠ some "bob" :=
  ⟨(change_nick_moves_all_state stC stC2 "bob" "rob" "pw" rfl).1,
   (change_nick_moves_all_state stC stC2 "bob" "rob" "pw" rfl).2.2.2.1,
   (change_nick_moves_all_state stC stC2 "bob" "rob" "pw" rfl).2.2.2.2.2.2.2 "tb"⟩

/-- C10: registration keys the new user record and its empty queue by the
trimmed nickname; it raises a 400 HTTPException exactly when the trimmed
nickname is empty, the password is empty, or the trimmed nickname already
exists, and a failed registration leaves the state untouched. -/
theorem register_trims_and_validates (st : ServerState) (nickname password : String) :
    ((register st nickname password).2 ≠ none ↔
      (pyStrip nickname = "" ∨ password = "" ∨ (dlookup st.users (pyStrip nickname)).isSome = true))
    ∧ (∀ e, (register st nickname password).2 = some e → ∃ d, e = ReqErr.http 400 d)
    ∧ ((register st nickname password).2 ≠ none → (register st nickname password).1 = st)
    ∧ ((register st nickname password).2 = none →
        (register st nickname password).1 =
          {st with users := dinsert st.users (pyStrip nickname) ⟨password, none⟩,
                   messages := dinsert st.messages (pyStrip nickname) []}) := by
  unfold register
  dsimp only
  split_ifs with h1 h2
  · rcases h1 with h1 | h1 <;>
      exact ⟨by simp [h1], fun e he => ⟨_, by simpa using he.symm⟩, fun _ => rfl, by simp⟩
  · refine ⟨by simp [h2], fun e he => ⟨_, by simpa using he.symm⟩,
      fun _ => rfl, by simp⟩
  · refine ⟨?_, by simp, fun hne => absurd rfl hne, fun _ => rfl⟩
    simp only [ne_eq, not_true_eq_false, false_iff, not_or]
    push_neg at h1
    exact ⟨h1.1, h1.2, by simpa using h2⟩

/-- Witness for C10: registering the padded nickname stores the trimmed
bob with an empty queue, and re-registering the existing alice leaves the
state untouched. -/
theorem register_trims_and_validates_witness :
    (register initialState "  bob  " "pw").1 =
      {initialState with
        users := dinsert initialState.users (pyStrip "  bob  ") ⟨"pw", none⟩,
        messages := dinsert initialState.messages (pyStrip "  bob  ") []}
    ∧ (register stA "alice" "x").1 = stA :=
  ⟨(register_trims_and_validates initialState "  bob  " "pw").2.2.2 rfl,
   (register_trims_and_validates stA "alice" "x").2.2.1 (by decide)⟩
